import Mathlib

set_option maxHeartbeats 1000000

/-!
Verification development for the carousel batch-generation driver
(`src/images/carousel/code/generate_all.py` plus the credential check in
`src/images/generate_image.py`).  The Python code is shallowly embedded:
dictionaries become structures, the remote Generation Client becomes an
oracle function supplied per run, wall-clock timestamps become an explicit
`now` argument, and observable side effects (client calls, sleeps, crop
attempts, ledger saves) are collected in an event list.
-/

/- Data model: one entry of the `generated_prompts.json` ledger.  The
`generation_status` sub-dictionary of a prompt record. -/
structure GenStatus where
  status : String
  filename : String
  url : Option String := none
  error : Option String := none
  generated_at : Option String := none
  attempted_at : Option String := none
  deriving DecidableEq

/- One work item of the ledger (a record of `data["prompts"]`). -/
structure PromptData where
  id : Nat
  style_name : String
  pack_name : String
  industry_name : String
  hook_pattern : String
  filename : String
  generation_status : Option GenStatus := none
  deriving DecidableEq

/- The ledger: the ordered `prompts` array of `generated_prompts.json`. -/
structure Ledger where
  prompts : List PromptData
  deriving DecidableEq

/- `p.get("generation_status", \x7b\x7d).get("status")`: `none` when the
item has no recorded status yet. -/
def statusOf (p : PromptData) : Option String :=
  p.generation_status.map (fun g => g.status)

def URL_PREFIX : String :=
  "https://fn7io.github.io/static_files/images/reference_carousels/"

/- Does `pat` occur at the head of `cs`? -/
def charsStartWith : List Char → List Char → Bool
  | [], _ => true
  | _ :: _, [] => false
  | p :: ps, c :: cs => p == c && charsStartWith ps cs

/- Does `pat` occur anywhere inside `cs`? -/
def charsContain (pat : List Char) : List Char → Bool
  | [] => charsStartWith pat []
  | c :: cs => charsStartWith pat (c :: cs) || charsContain pat cs

/- `'500' in str(error)`: substring containment on code points. -/
def strContains (s pat : String) : Bool :=
  charsContain pat.toList s.toList

/- The `style_visuals` table of `build_carousel_prompt`. -/
def style_visuals : List (String × String) :=
  [ ("Modern Clean", "white background, blue accent, clean sans-serif font"),
    ("Minimalist", "pure white, thin gray text, maximum whitespace"),
    ("Simple Bold", "black and white only, huge bold text"),
    ("Elegant Premium", "navy and cream, gold accents, serif font"),
    ("Aesthetic Soft", "pastel pink/sage gradient, rounded corners"),
    ("Professional Corporate", "blue and white, clean grid layout"),
    ("Warm Friendly", "coral and peach tones, rounded friendly font"),
    ("Dark Dramatic", "charcoal background, white text, moody"),
    ("Playful Colorful", "bright primary colors, fun shapes"),
    ("Soft Organic", "earth tones (sage, terracotta), natural feel"),
    ("Retro Vintage", "faded orange/brown, 70s typography"),
    ("Tech Futuristic", "dark mode, neon cyan accents"),
    ("Editorial Magazine", "black/white with red accent, serif headlines"),
    ("Bold Typography", "giant text filling slides, color blocks"),
    ("Handcrafted Artisan", "craft paper texture, hand-lettered"),
    ("Lo-fi Raw", "unpolished, casual handwriting, authentic") ]

/- The `pack_content` table of `build_carousel_prompt`. -/
def pack_content : List (String × String) :=
  [ ("For [Tribe] Only",
     "Slide1:\x27For You\x27 Slide2:\x27Problem\x27 Slide3:\x27Solution\x27 Slide4:\x27Quote\x27 Slide5:\x27Join\x27"),
    ("Founder Story / Anti-Ad",
     "Slide1:\x27Truth\x27 Slide2:\x27Before\x27 Slide3:\x27After\x27 Slide4:\x27Proof\x27 Slide5:\x27Start\x27"),
    ("Social Proof Carousel",
     "Slide1:\x27Claim\x27 Slide2:\x27Stats\x27 Slide3:\x27Review\x27 Slide4:\x27Features\x27 Slide5:\x27CTA\x27"),
    ("Myth Buster Carousel",
     "Slide1:\x27Myth\x27 Slide2:\x27Why\x27 Slide3:\x27Truth\x27 Slide4:\x27Proof\x27 Slide5:\x27Learn\x27"),
    ("Insider Secret Reveal",
     "Slide1:\x27Secret\x27 Slide2:\x27Swipe\x27 Slide3:\x27Tips\x27 Slide4:\x27Works\x27 Slide5:\x27Save\x27"),
    ("Problem → Solution Carousel",
     "Slide1:\x27Stop\x27 Slide2:\x27Before/After\x27 Slide3:\x27How\x27 Slide4:\x27Results\x27 Slide5:\x27Start\x27"),
    ("Price Math Carousel",
     "Slide1:\x27Price\x27 Slide2:\x27Compare\x27 Slide3:\x27Include\x27 Slide4:\x27Worth it\x27 Slide5:\x27Now\x27"),
    ("X vs Y Comparison",
     "Slide1:\x27X vs Y\x27 Slide2:\x27Compare\x27 Slide3:\x27Winner\x27 Slide4:\x27Proof\x27 Slide5:\x27Try\x27"),
    ("Educational Carousel",
     "Slide1:\x27Hook\x27 Slide2:\x27Point 1\x27 Slide3:\x27Point 2\x27 Slide4:\x27Tip\x27 Slide5:\x27Follow\x27"),
    ("FOMO Launch Carousel",
     "Slide1:\x27Limited\x27 Slide2:\x27Product\x27 Slide3:\x27Includes\x27 Slide4:\x27Proof\x27 Slide5:\x27Act\x27") ]

/- `build_carousel_prompt(prompt_data)`: pure prompt construction.  Unknown
style keys fall back to the style name itself, unknown pack keys to a
generic slide list, as in the `.get` calls of the source. -/
def build_carousel_prompt (prompt_data : PromptData) : String :=
  let style := prompt_data.style_name
  let pack := prompt_data.pack_name
  let industry := prompt_data.industry_name
  let visual := (style_visuals.lookup style).getD style
  let content := (pack_content.lookup pack).getD
    "Slide1:\x27Hook\x27 Slide2:\x27Point\x27 Slide3:\x27Point\x27 Slide4:\x27Proof\x27 Slide5:\x27CTA\x27"
  "Create a horizontal banner showing 5 carousel slides in a row.\n\nSTYLE: "
    ++ style.toUpper ++ " - " ++ visual
    ++ "\n\nShow 5 slides side by side. Each slide has bold text:\n" ++ content
    ++ "\n\nMake it clean and cohesive in the " ++ style ++ " style for "
    ++ industry ++ "."

/- `get_pending(data)`: every item whose recorded status differs from
`success` (an absent status also differs). -/
def get_pending (data : Ledger) : List PromptData :=
  data.prompts.filter (fun p => statusOf p ≠ some "success")

/- The `retry-failed` selection of `main`: items whose status is `failed`
or `exception`. -/
def retry_failed_items (data : Ledger) : List PromptData :=
  data.prompts.filter
    (fun p => statusOf p = some "failed" ∨ statusOf p = some "exception")

/- Aggregate counts computed by `print_status`, with the success
percentage `100*success/total`. -/
structure StatusReport where
  total : Nat
  success : Nat
  failed : Nat
  pending : Nat
  pct : ℚ
  deriving DecidableEq

/- `print_status(data)`: the division `100*success/total` raises
`ZeroDivisionError` in Python when the ledger is empty; the fallible
division is made explicit with `Except`. -/
def print_status (prompts : List PromptData) : Except String StatusReport :=
  let total := prompts.length
  let success := prompts.countP (fun p => statusOf p = some "success")
  let failed := prompts.countP
    (fun p => statusOf p = some "failed" ∨ statusOf p = some "exception")
  if total = 0 then Except.error "ZeroDivisionError"
  else Except.ok
    { total := total, success := success, failed := failed,
      pending := total - success - failed,
      pct := 100 * (success : ℚ) / (total : ℚ) }

/- The dictionary returned by `generator.generate_image`: `success`,
`saved_paths`, `error` keys. -/
structure GenerationResult where
  success : Bool
  saved_paths : List String := []
  error : Option String := none
  deriving DecidableEq

/- One call to the Generation Client either returns a result dictionary or
raises (network/transport failure caught by the outer `except`). -/
inductive CallOutcome
  | ok (result : GenerationResult)
  | exn (msg : String)
  deriving DecidableEq

/- Observable side effects of a run, in order of occurrence. -/
inductive Eff
  | ledgerRead
  | save
  | genCall (attempt : Nat)
  | slept (seconds : ℚ)
  | cropAttempt (ok : Bool)
  | report (r : StatusReport)
  deriving DecidableEq

/- The retry loop of `generate_single`: `for attempt in range(1,
max_retries + 1)`.  `attempt` is the Python loop variable; `fuel` counts
the iterations that remain (`max_retries - attempt + 1` on entry), so
running out of fuel is exactly falling off the end of the `for`, which
returns the final `Max retries` record.  The client is called with the
built prompt; the crop block runs on success and its own failure is caught
(recorded as a `cropAttempt` event); transient (`'500' in error`) failures
with attempts remaining sleep 5 seconds and retry, as do raised
exceptions; other failures return immediately. -/
def genLoop (client : String → Nat → CallOutcome) (cropOk : Nat → Bool)
    (prompt filename now : String) (max_retries : Nat) :
    Nat → Nat → GenStatus × List Eff
  | _attempt, 0 =>
    ({ status := "failed", filename := filename, error := some "Max retries",
       attempted_at := some now }, [])
  | attempt, fuel + 1 =>
    match client prompt attempt with
    | CallOutcome.ok result =>
      let cropEvents :=
        if result.success && !result.saved_paths.isEmpty then
          [Eff.cropAttempt (cropOk attempt)]
        else []
      if result.success then
        ({ status := "success", filename := filename,
           url := some (URL_PREFIX ++ filename), generated_at := some now },
         Eff.genCall attempt :: cropEvents)
      else
        let error := result.error.getD "Unknown"
        if strContains error "500" = true ∧ attempt < max_retries then
          let tail := genLoop client cropOk prompt filename now max_retries
            (attempt + 1) fuel
          (tail.1, Eff.genCall attempt :: Eff.slept 5 :: tail.2)
        else
          ({ status := "failed", filename := filename,
             error := some (error.take 200), attempted_at := some now },
           [Eff.genCall attempt])
    | CallOutcome.exn e =>
      if attempt < max_retries then
        let tail := genLoop client cropOk prompt filename now max_retries
          (attempt + 1) fuel
        (tail.1, Eff.genCall attempt :: Eff.slept 5 :: tail.2)
      else
        ({ status := "exception", filename := filename,
           error := some (e.take 200), attempted_at := some now },
         [Eff.genCall attempt])

/- `generate_single(generator, prompt_data, output_dir, max_retries)`:
build the prompt, then run the attempt loop starting at attempt 1. -/
def generate_single (client : String → Nat → CallOutcome) (cropOk : Nat → Bool)
    (prompt_data : PromptData) (now : String) (max_retries : Nat) :
    GenStatus × List Eff :=
  let prompt := build_carousel_prompt prompt_data
  genLoop client cropOk prompt prompt_data.filename now max_retries 1 max_retries

/- CLI arguments of `main` with their argparse defaults. -/
structure Args where
  start : Nat
  batch : Nat
  resume : Bool
  retry_failed : Bool
  status : Bool
  delay : ℚ
  deriving DecidableEq

def defaultArgs : Args :=
  { start := 1, batch := 177, resume := false, retry_failed := false,
    status := false, delay := 2 }

/- Batch selection in `main`: resume mode, retry-failed mode, or the
id-range mode `p["id"] >= args.start`, each truncated to `args.batch`. -/
def selectItems (args : Args) (data : Ledger) : List PromptData :=
  if args.resume then (get_pending data).take args.batch
  else if args.retry_failed then (retry_failed_items data).take args.batch
  else (data.prompts.filter (fun p => args.start ≤ p.id)).take args.batch

/- In-place update of the item with the given id (ids are unique in a
ledger, per the creation step). -/
def updateItem (ps : List PromptData) (id : Nat) (st : GenStatus) :
    List PromptData :=
  ps.map (fun p => if p.id = id then { p with generation_status := some st } else p)

/- The per-item loop of `main`: skip already-successful items unless in
retry-failed mode, otherwise run `generate_single` (with the default
`max_retries = 2` of the call site), fold the result into the ledger,
save, and sleep `args.delay` between items (`i < len(to_process) - 1`).
The client and crop oracles take the item id first. -/
def processLoop (client : Nat → String → Nat → CallOutcome)
    (cropOk : Nat → Nat → Bool) (now : String) (retry_failed : Bool)
    (delay : ℚ) (total : Nat) :
    Nat → List PromptData → List PromptData → List PromptData × List Eff
  | _i, data, [] => (data, [])
  | i, data, item :: rest =>
    if ¬retry_failed ∧ statusOf item = some "success" then
      processLoop client cropOk now retry_failed delay total (i + 1) data rest
    else
      let r := generate_single (client item.id) (cropOk item.id) item now 2
      let data2 := updateItem data item.id r.1
      let evs := r.2 ++ [Eff.save]
      let evs2 := if i < total - 1 then evs ++ [Eff.slept delay] else evs
      let tail := processLoop client cropOk now retry_failed delay total
        (i + 1) data2 rest
      (tail.1, evs2 ++ tail.2)

inductive RunError
  | zeroDivision
  | missingApiKey
  deriving DecidableEq

inductive MainOutcome
  | finished (data : Ledger)
  | crashed (e : RunError)
  deriving DecidableEq

/- Process exit code: 0 on normal return, nonzero (1) when an uncaught
exception terminates the interpreter. -/
def exitCode : MainOutcome → Nat
  | MainOutcome.finished _ => 0
  | MainOutcome.crashed _ => 1

/- `main()`: load the ledger (a ledger read happens first on every path),
handle `--status`, select the batch, bail out when nothing is selected,
construct the generator — which raises `ValueError` when the
`GEMINI_API_KEY` environment variable is absent — then run the loop and
print the final status report. -/
def mainModel (apiKeyPresent : Bool) (client : Nat → String → Nat → CallOutcome)
    (cropOk : Nat → Nat → Bool) (now : String) (args : Args) (stored : Ledger) :
    List Eff × MainOutcome :=
  let tr0 := [Eff.ledgerRead]
  if args.status then
    match print_status stored.prompts with
    | Except.error _ => (tr0, MainOutcome.crashed RunError.zeroDivision)
    | Except.ok r => (tr0 ++ [Eff.report r], MainOutcome.finished stored)
  else
    let to_process := selectItems args stored
    if to_process.isEmpty then
      match print_status stored.prompts with
      | Except.error _ => (tr0, MainOutcome.crashed RunError.zeroDivision)
      | Except.ok r => (tr0 ++ [Eff.report r], MainOutcome.finished stored)
    else if ¬apiKeyPresent then
      (tr0, MainOutcome.crashed RunError.missingApiKey)
    else
      let run := processLoop client cropOk now args.retry_failed args.delay
        to_process.length 0 stored.prompts to_process
      match print_status run.1 with
      | Except.error _ => (tr0 ++ run.2, MainOutcome.crashed RunError.zeroDivision)
      | Except.ok r =>
        (tr0 ++ run.2 ++ [Eff.report r], MainOutcome.finished ⟨run.1⟩)

def isGenCall : Eff → Bool
  | Eff.genCall _ => true
  | _ => false

/- Number of Generation Client calls recorded in an event trace. -/
def numCalls (evs : List Eff) : Nat :=
  (evs.filter isGenCall).length

def isSleep : Eff → Bool
  | Eff.slept _ => true
  | _ => false

def isLedgerAccess : Eff → Bool
  | Eff.ledgerRead => true
  | Eff.save => true
  | _ => false

/- End-to-end scenario of the spec (§8): three pending items, ids 1-3. -/
def c1Item (i : Nat) : PromptData :=
  { id := i, style_name := "Modern Clean", pack_name := "Educational Carousel",
    industry_name := "Fitness", hook_pattern := "How to",
    filename := "carousel_" ++ toString i ++ ".png", generation_status := none }

def c1Ledger : Ledger := ⟨[c1Item 1, c1Item 2, c1Item 3]⟩

def okSuccess : CallOutcome :=
  CallOutcome.ok { success := true, saved_paths := ["out.png"], error := none }

def transientFail : CallOutcome :=
  CallOutcome.ok
    { success := false, saved_paths := [], error := some "500 Internal Server Error" }

def terminalFail : CallOutcome :=
  CallOutcome.ok
    { success := false, saved_paths := [], error := some "Invalid request" }

/- Generation Client stub of the end-to-end scenario: item 1 succeeds at
once, item 2 reports a transient failure on its first two calls and would
succeed on a third, item 3 reports a terminal failure. -/
def c1Client : Nat → String → Nat → CallOutcome := fun id _prompt attempt =>
  if id = 1 then okSuccess
  else if id = 2 then (if attempt ≤ 2 then transientFail else okSuccess)
  else terminalFail

def c1Run : List Eff × MainOutcome :=
  mainModel true c1Client (fun _ _ => true) "2026-01-01T00:00:00" defaultArgs c1Ledger

/- Final recorded statuses, in ledger order, of a finished run. -/
def finalStatuses : MainOutcome → List (Option String)
  | MainOutcome.finished d => d.prompts.map statusOf
  | MainOutcome.crashed _ => []

/-- C1: counterexample.  In the end-to-end scenario (3 pending items, stub
client as in the spec, default `max_retries = 2`) the run does NOT end with
statuses `[success, success, failed]` and 5 client calls: `max_retries = 2`
allows only two attempts, so item 2 never reaches its succeeding third
call. -/
theorem c1_end_to_end_counterexample :
    ¬ (finalStatuses c1Run.2 = [some "success", some "success", some "failed"] ∧
       numCalls c1Run.1 = 5) := by
  decide

/-- C1 (amended): with the default `max_retries = 2`, the end-to-end
scenario ends with final recorded statuses `[success, failed, failed]` and
exactly 4 Generation Client calls (1 for item 1, 2 for item 2, 1 for
item 3). -/
theorem c1_end_to_end_amended :
    finalStatuses c1Run.2 = [some "success", some "failed", some "failed"] ∧
    numCalls c1Run.1 = 4 := by
  decide

/- Helper for C2: under a client that reports the same transient failure on
every call, the attempt loop runs its remaining `fuel` iterations and ends
in the `failed` record with the truncated error and timestamp. -/
theorem genLoop_always_transient
    (client : String → Nat → CallOutcome) (cropOk : Nat → Bool)
    (prompt filename now e : String)
    (hc : ∀ s a, client s a =
      CallOutcome.ok { success := false, saved_paths := [], error := some e })
    (h500 : strContains e "500" = true) :
    ∀ fuel attempt max_retries, attempt + fuel = max_retries + 1 → 1 ≤ fuel →
      (genLoop client cropOk prompt filename now max_retries attempt fuel).1 =
        { status := "failed", filename := filename, error := some (e.take 200),
          attempted_at := some now } ∧
      numCalls (genLoop client cropOk prompt filename now max_retries attempt fuel).2
        = fuel := by
  intro fuel
  induction fuel with
  | zero => intro attempt mr _ h1; omega
  | succ f ih =>
    intro attempt mr hsum _
    cases f with
    | zero =>
      have hat : attempt = mr := by omega
      simp [genLoop, hc, hat, numCalls, isGenCall]
    | succ g =>
      have hlt : attempt < mr := by omega
      have htail := ih (attempt + 1) mr (by omega) (by omega)
      simp [genLoop, hc, h500, hlt, numCalls, isGenCall] at htail ⊢
      exact htail

/-- C2: if the Generation Client reports a (server-side-marked) transient
failure on every call, `generate_single` makes exactly `max_retries`
Generation Client calls for any `max_retries ≥ 1`, then records status
`failed` with the truncated error text and the timestamp — the attempt
loop always terminates. -/
theorem c2_bounded_retry
    (client : String → Nat → CallOutcome) (cropOk : Nat → Bool)
    (p : PromptData) (now e : String) (max_retries : Nat)
    (hc : ∀ s a, client s a =
      CallOutcome.ok { success := false, saved_paths := [], error := some e })
    (h500 : strContains e "500" = true) (hmr : 1 ≤ max_retries) :
    (generate_single client cropOk p now max_retries).1.status = "failed" ∧
    (generate_single client cropOk p now max_retries).1.error = some (e.take 200) ∧
    (generate_single client cropOk p now max_retries).1.attempted_at = some now ∧
    numCalls (generate_single client cropOk p now max_retries).2 = max_retries := by
  obtain ⟨h1, h2⟩ := genLoop_always_transient client cropOk
    (build_carousel_prompt p) p.filename now e hc h500 max_retries 1 max_retries
    (by omega) hmr
  refine ⟨?_, ?_, ?_, ?_⟩ <;> simp [generate_single, h1, h2]

def c2Client : String → Nat → CallOutcome := fun _ _ =>
  CallOutcome.ok
    { success := false, saved_paths := [], error := some "HTTP 500" }

/-- C2 witness: the always-transient stub at `max_retries = 2`. -/
theorem c2_bounded_retry_witness :
    (generate_single c2Client (fun _ => true) (c1Item 1) "t0" 2).1.status = "failed" ∧
    (generate_single c2Client (fun _ => true) (c1Item 1) "t0" 2).1.error =
      some ("HTTP 500".take 200) ∧
    (generate_single c2Client (fun _ => true) (c1Item 1) "t0" 2).1.attempted_at =
      some "t0" ∧
    numCalls (generate_single c2Client (fun _ => true) (c1Item 1) "t0" 2).2 = 2 :=
  c2_bounded_retry c2Client (fun _ => true) (c1Item 1) "t0" "HTTP 500" 2
    (fun _ _ => rfl) (by decide) (by omega)

/-- C3: a reported generation failure (a result with `success = false`) is
retried after a fixed 5-second sleep exactly when its error text contains
the server-side marker `"500"` and attempts remain; any other reported
failure is recorded as `failed` immediately, with the truncated error text,
after that single call. -/
theorem c3_transient_classification
    (client : String → Nat → CallOutcome) (cropOk : Nat → Bool)
    (prompt filename now : String) (max_retries attempt fuel : Nat)
    (result : GenerationResult)
    (hc : client prompt attempt = CallOutcome.ok result)
    (hfail : result.success = false) :
    ((strContains (result.error.getD "Unknown") "500" = true ∧
        attempt < max_retries) →
      genLoop client cropOk prompt filename now max_retries attempt (fuel + 1) =
        ((genLoop client cropOk prompt filename now max_retries (attempt + 1) fuel).1,
         Eff.genCall attempt :: Eff.slept 5 ::
           (genLoop client cropOk prompt filename now max_retries (attempt + 1) fuel).2)) ∧
    (¬ (strContains (result.error.getD "Unknown") "500" = true ∧
        attempt < max_retries) →
      genLoop client cropOk prompt filename now max_retries attempt (fuel + 1) =
        ({ status := "failed", filename := filename,
           error := some ((result.error.getD "Unknown").take 200),
           attempted_at := some now }, [Eff.genCall attempt])) := by
  constructor <;> intro h <;> simp [genLoop, hc, hfail, h]

/-- C3 witness: a `"500"`-marked failure at attempt 1 of 2 sleeps 5 seconds
and retries from attempt 2. -/
theorem c3_transient_classification_witness :
    genLoop (fun _ _ => transientFail) (fun _ => true) "p" "f.png" "t0" 2 1 2 =
      ((genLoop (fun _ _ => transientFail) (fun _ => true) "p" "f.png" "t0" 2 2 1).1,
       Eff.genCall 1 :: Eff.slept 5 ::
         (genLoop (fun _ _ => transientFail) (fun _ => true) "p" "f.png" "t0" 2 2 1).2) :=
  (c3_transient_classification (fun _ _ => transientFail) (fun _ => true)
    "p" "f.png" "t0" 2 1 1
    { success := false, saved_paths := [],
      error := some "500 Internal Server Error" }
    rfl rfl).1 ⟨by decide, by decide⟩

/-- C6: when the Generation Client call of the current attempt succeeds,
the recorded outcome is the `success` record with timestamp and artifact
location, and it is identical whatever the Post-Processor (crop/resize)
outcome oracle says — a crop failure never reverts it. -/
theorem c6_postprocess_never_reverts
    (client : String → Nat → CallOutcome) (cropOk cropOk2 : Nat → Bool)
    (prompt filename now : String) (max_retries attempt fuel : Nat)
    (result : GenerationResult)
    (hc : client prompt attempt = CallOutcome.ok result)
    (hok : result.success = true) :
    (genLoop client cropOk prompt filename now max_retries attempt (fuel + 1)).1 =
      { status := "success", filename := filename,
        url := some (URL_PREFIX ++ filename), generated_at := some now } ∧
    (genLoop client cropOk prompt filename now max_retries attempt (fuel + 1)).1 =
    (genLoop client cropOk2 prompt filename now max_retries attempt (fuel + 1)).1 := by
  constructor <;> simp [genLoop, hc, hok]

/-- C6 witness: the same success record whether the crop oracle fails or
succeeds. -/
theorem c6_postprocess_never_reverts_witness :
    (genLoop (fun _ _ => okSuccess) (fun _ => false) "p" "f.png" "t0" 2 1 2).1 =
      { status := "success", filename := "f.png",
        url := some (URL_PREFIX ++ "f.png"), generated_at := some "t0" } ∧
    (genLoop (fun _ _ => okSuccess) (fun _ => false) "p" "f.png" "t0" 2 1 2).1 =
    (genLoop (fun _ _ => okSuccess) (fun _ => true) "p" "f.png" "t0" 2 1 2).1 :=
  c6_postprocess_never_reverts (fun _ _ => okSuccess) (fun _ => false)
    (fun _ => true) "p" "f.png" "t0" 2 1 1
    { success := true, saved_paths := ["out.png"], error := none } rfl rfl

/- Model of `save_prompts(data)`: CPython `open(PROMPTS_FILE, "w")`
truncates the ledger file in place and `json.dump` then writes the
serialized text left to right, so a process interrupted after `k`
characters leaves exactly the length-`k` prefix of the new text on disk
(there is no temporary file and no atomic rename). -/
def save_prompts_interrupted (serialized : String) (k : Nat) : String :=
  (serialized.toList.take k).asString

def c4OldContent : String := "prompts: [id 1 pending, id 2 pending]"

def c4NewContent : String := "prompts: [id 1 success, id 2 pending]"

/-- C4: `save_prompts` is not an all-or-nothing write: interrupting it at
step 0 (right after `open(..., "w")` truncated the file, before `json.dump`
wrote anything) leaves a persisted ledger that is neither the old
collection nor the new one. -/
theorem c4_save_not_atomic :
    ∃ k, save_prompts_interrupted c4NewContent k ≠ c4OldContent ∧
         save_prompts_interrupted c4NewContent k ≠ c4NewContent :=
  ⟨0, by decide, by decide⟩

def mkStatus (s : String) : GenStatus :=
  { status := s, filename := "x.png" }

def c5Item (i : Nat) (st : Option GenStatus) : PromptData :=
  { id := i, style_name := "Minimalist", pack_name := "Social Proof Carousel",
    industry_name := "Retail", hook_pattern := "Did you know",
    filename := "carousel_" ++ toString i ++ ".png", generation_status := st }

/- Ledger of §8 order preservation: statuses
`[success, pending, failed, success, exception]`, ids 1-5. -/
def c5Ledger : Ledger :=
  ⟨[ c5Item 1 (some (mkStatus "success")),
     c5Item 2 (some (mkStatus "pending")),
     c5Item 3 (some (mkStatus "failed")),
     c5Item 4 (some (mkStatus "success")),
     c5Item 5 (some (mkStatus "exception")) ]⟩

/-- C5: counterexample.  Over statuses
`[success, pending, failed, success, exception]`, `get_pending` does not
return only `[id2]`: it returns every non-`success` item, `[id2, id3, id5]`,
so the claimed pair `([id2], [id3, id5])` is wrong about the code. -/
theorem c5_order_preservation_counterexample :
    ¬ ((get_pending c5Ledger).map (fun p => p.id) = [2] ∧
       (retry_failed_items c5Ledger).map (fun p => p.id) = [3, 5]) := by
  decide

/-- C5 (amended): `get_pending` returns, in original creation order,
exactly the items whose status is not `success` (an absent status counts
as pending) — over the example statuses that is `[id2, id3, id5]` — and
the failed selection returns exactly the `failed`/`exception` items,
`[id3, id5]`; both are order-preserving sublists of the ledger. -/
theorem c5_order_preservation_amended :
    (get_pending c5Ledger).map (fun p => p.id) = [2, 3, 5] ∧
    (retry_failed_items c5Ledger).map (fun p => p.id) = [3, 5] ∧
    (∀ data : Ledger, List.Sublist (get_pending data) data.prompts ∧
      ∀ p, p ∈ get_pending data ↔
        p ∈ data.prompts ∧ statusOf p ≠ some "success") ∧
    (∀ data : Ledger, List.Sublist (retry_failed_items data) data.prompts ∧
      ∀ p, p ∈ retry_failed_items data ↔ p ∈ data.prompts ∧
        (statusOf p = some "failed" ∨ statusOf p = some "exception")) := by
  refine ⟨by decide, by decide,
    fun data => ⟨List.filter_sublist _, fun p => ?_⟩,
    fun data => ⟨List.filter_sublist _, fun p => ?_⟩⟩
  · simp [get_pending, List.mem_filter]
  · simp [retry_failed_items, List.mem_filter]

/- The C7 claim, evaluated on one run: if the run died of the missing
credential, then no ledger access (read or write) occurred in its trace. -/
def credentialFailsBeforeLedgerAccess (run : List Eff × MainOutcome) : Prop :=
  run.2 = MainOutcome.crashed RunError.missingApiKey →
    run.1.filter isLedgerAccess = []

/-- C7: counterexample.  Running the driver over three pending items with
the API key absent does crash with the missing-credential error, but the
ledger has already been read by then (`load_prompts()` runs before the
generator is constructed), so the failure does not precede every ledger
access. -/
theorem c7_credential_counterexample :
    ¬ credentialFailsBeforeLedgerAccess
      (mainModel false c1Client (fun _ _ => true) "t0" defaultArgs c1Ledger) :=
  fun h => absurd (h (by decide)) (by decide)

/-- C7 (amended): with the API key absent, any generation-mode invocation
with a nonempty batch reads the ledger once, then fails with the fatal
missing-credential setup error and exits nonzero, before any ledger write
and before any Generation Client call. -/
theorem c7_credential_amended
    (client : Nat → String → Nat → CallOutcome) (cropOk : Nat → Nat → Bool)
    (now : String) (args : Args) (stored : Ledger)
    (hstatus : args.status = false)
    (hsel : selectItems args stored ≠ []) :
    mainModel false client cropOk now args stored =
      ([Eff.ledgerRead], MainOutcome.crashed RunError.missingApiKey) ∧
    exitCode (mainModel false client cropOk now args stored).2 = 1 ∧
    numCalls (mainModel false client cropOk now args stored).1 = 0 ∧
    Eff.save ∉ (mainModel false client cropOk now args stored).1 := by
  have hempty : (selectItems args stored).isEmpty = false := by
    cases h : selectItems args stored with
    | nil => exact absurd h hsel
    | cons a l => rfl
  have hmain : mainModel false client cropOk now args stored =
      ([Eff.ledgerRead], MainOutcome.crashed RunError.missingApiKey) := by
    simp [mainModel, hstatus, hempty]
  refine ⟨hmain, ?_, ?_, ?_⟩ <;> rw [hmain] <;> decide

/-- C7 witness: the amended behavior on the concrete three-item ledger. -/
theorem c7_credential_amended_witness :
    mainModel false c1Client (fun _ _ => true) "t0" defaultArgs c1Ledger =
      ([Eff.ledgerRead], MainOutcome.crashed RunError.missingApiKey) ∧
    exitCode (mainModel false c1Client (fun _ _ => true) "t0" defaultArgs c1Ledger).2 = 1 ∧
    numCalls (mainModel false c1Client (fun _ _ => true) "t0" defaultArgs c1Ledger).1 = 0 ∧
    Eff.save ∉ (mainModel false c1Client (fun _ _ => true) "t0" defaultArgs c1Ledger).1 :=
  c7_credential_amended c1Client (fun _ _ => true) "t0" defaultArgs c1Ledger
    rfl (by decide)

/-- C8: the Prompt Builder is deterministic — two work items with
identical descriptor fields (style, pack, industry, hook) produce
byte-identical prompt payloads; `build_carousel_prompt` is a pure function
of those fields and the static tables. -/
theorem c8_prompt_deterministic (d1 d2 : PromptData)
    (hs : d1.style_name = d2.style_name) (hp : d1.pack_name = d2.pack_name)
    (hi : d1.industry_name = d2.industry_name)
    (_hh : d1.hook_pattern = d2.hook_pattern) :
    build_carousel_prompt d1 = build_carousel_prompt d2 := by
  simp [build_carousel_prompt, hs, hp, hi]

def c8ItemA : PromptData :=
  { id := 1, style_name := "Dark Dramatic", pack_name := "Myth Buster Carousel",
    industry_name := "Coffee", hook_pattern := "Myth", filename := "a.png",
    generation_status := none }

def c8ItemB : PromptData :=
  { id := 99, style_name := "Dark Dramatic", pack_name := "Myth Buster Carousel",
    industry_name := "Coffee", hook_pattern := "Myth", filename := "b.png",
    generation_status := some (mkStatus "failed") }

/-- C8 witness: two items that differ only in id, filename and recorded
status get byte-identical prompts. -/
theorem c8_prompt_deterministic_witness :
    build_carousel_prompt c8ItemA = build_carousel_prompt c8ItemB :=
  c8_prompt_deterministic c8ItemA c8ItemB rfl rfl rfl rfl

/- The post-processing block of `generate_single` (crop to 5:1, then
resize): given the source size `(w, h)` it yields the crop box
`(left, upper, right, lower)` and the final resize target.  The Python
float arithmetic is exact on these magnitudes and is modelled with
rationals; `int(...)` on the nonnegative values is the floor. -/
def postProcessPlan (w h : Nat) : (Nat × Nat × Nat × Nat) × (Nat × Nat) :=
  let target_ratio : ℚ := 5
  let current_ratio : ℚ := (w : ℚ) / (h : ℚ)
  if current_ratio < target_ratio then
    let new_h := (⌊(w : ℚ) / target_ratio⌋).toNat
    let top := (h - new_h) / 2
    ((0, top, w, top + new_h), (1000, 200))
  else
    let new_w := (⌊(h : ℚ) * target_ratio⌋).toNat
    let left := (w - new_w) / 2
    ((left, 0, left + new_w, h), (1000, 200))

/-- C9: on a 1200×200 artifact with target ratio 5:1 at 1000×200, the
post-processor crops the width symmetrically about the center — box
`(100, 0, 1100, 200)`, 100 pixels off each side — before resampling, and
the cropped region is already exactly 1000×200, the final resize target,
so the output is exactly 1000×200 with no letterboxing. -/
theorem c9_crop_resize_plan :
    postProcessPlan 1200 200 = ((100, 0, 1100, 200), (1000, 200)) ∧
    1100 - 100 = 1000 ∧ 200 - 0 = 200 ∧ 1200 - 1100 = 100 := by
  refine ⟨?_, by decide, by decide, by decide⟩
  simp only [postProcessPlan]
  norm_num
  decide

def statusArgs : Args :=
  { start := 1, batch := 177, resume := false, retry_failed := false,
    status := true, delay := 2 }

/-- C10: `print_status` divides by the item count with no zero guard: on
the empty ledger it raises `ZeroDivisionError` — both under `--status` and
in the report printed after a run — while on every non-empty ledger the
report (and its success percentage) is well-defined. -/
theorem c10_division_by_zero :
    print_status [] = Except.error "ZeroDivisionError" ∧
    (∀ ps : List PromptData, ps ≠ [] → (print_status ps).isOk = true) ∧
    (∀ (k : Bool) client cropOk now,
      (mainModel k client cropOk now statusArgs ⟨[]⟩).2 =
        MainOutcome.crashed RunError.zeroDivision) ∧
    (∀ (k : Bool) client cropOk now,
      (mainModel k client cropOk now defaultArgs ⟨[]⟩).2 =
        MainOutcome.crashed RunError.zeroDivision) := by
  refine ⟨rfl, ?_, fun k client cropOk now => rfl, fun k client cropOk now => rfl⟩
  intro ps hps
  have h : ¬ ps.length = 0 := by
    cases ps with
    | nil => exact absurd rfl hps
    | cons a l => simp
  simp [print_status, h, Except.isOk, Except.toBool]

/-- C10 witness: the report is well-defined on a one-item ledger. -/
theorem c10_division_by_zero_witness :
    (print_status [c1Item 1]).isOk = true :=
  c10_division_by_zero.2.1 [c1Item 1] (by decide)
